import Mathlib

/-!
# Formal model of `ai-api-validator`

A shallow embedding, in Lean 4, of the core logic of the `ai-api-validator`
repository: the endpoint validator (`src/api_validator.py`), the drift
detector (`src/drift_detector.py`) and the CLI exit-code policy
(`src/main.py`).  Python dictionaries are embedded as association lists
(Python dictionaries preserve insertion order and have unique keys; every
theorem below only exercises the embedding on such values), JSON-like
Python values as the inductive type `Json`, and the live network as an
explicit oracle passed to the validator.  Machine-level details that the
source relies on (SHA-256, Python `json.dumps` with `sort_keys=True`,
Python truthiness, `str()` conversion) are embedded concretely below.
-/

/-- A JSON-like Python value, as produced by `yaml.safe_load` / `json.load`:
`None`, booleans, numbers, strings, lists and (insertion-ordered) dicts.
JSON numbers are modelled as integers; no claim below involves floats. -/
inductive Json where
  | null : Json
  | bool (b : Bool) : Json
  | num (n : Int) : Json
  | str (s : String) : Json
  | arr (elems : List Json) : Json
  | obj (fields : List (String × Json)) : Json
  deriving Repr

mutual

/-- Structural (order-sensitive) equality test on `Json`. -/
def Json.beq : Json → Json → Bool
  | .null, .null => true
  | .bool a, .bool b => a == b
  | .num a, .num b => a == b
  | .str a, .str b => a == b
  | .arr a, .arr b => Json.beqList a b
  | .obj a, .obj b => Json.beqFields a b
  | _, _ => false

/-- `Json.beq` lifted to lists. -/
def Json.beqList : List Json → List Json → Bool
  | [], [] => true
  | x :: xs, y :: ys => Json.beq x y && Json.beqList xs ys
  | _, _ => false

/-- `Json.beq` lifted to association lists. -/
def Json.beqFields : List (String × Json) → List (String × Json) → Bool
  | [], [] => true
  | (k1, v1) :: xs, (k2, v2) :: ys =>
      k1 == k2 && Json.beq v1 v2 && Json.beqFields xs ys
  | _, _ => false

end

mutual

theorem Json.beq_iff : ∀ (a b : Json), Json.beq a b = true ↔ a = b
  | .null, .null => by simp [Json.beq]
  | .null, .bool _ | .null, .num _ | .null, .str _ | .null, .arr _ | .null, .obj _ => by
      simp [Json.beq]
  | .bool _, .null | .bool _, .num _ | .bool _, .str _ | .bool _, .arr _ | .bool _, .obj _ => by
      simp [Json.beq]
  | .num _, .null | .num _, .bool _ | .num _, .str _ | .num _, .arr _ | .num _, .obj _ => by
      simp [Json.beq]
  | .str _, .null | .str _, .bool _ | .str _, .num _ | .str _, .arr _ | .str _, .obj _ => by
      simp [Json.beq]
  | .arr _, .null | .arr _, .bool _ | .arr _, .num _ | .arr _, .str _ | .arr _, .obj _ => by
      simp [Json.beq]
  | .obj _, .null | .obj _, .bool _ | .obj _, .num _ | .obj _, .str _ | .obj _, .arr _ => by
      simp [Json.beq]
  | .bool a, .bool b => by simp [Json.beq]
  | .num a, .num b => by simp [Json.beq]
  | .str a, .str b => by simp [Json.beq]
  | .arr a, .arr b => by
      simp only [Json.beq, Json.beqList_iff a b, Json.arr.injEq]
  | .obj a, .obj b => by
      simp only [Json.beq, Json.beqFields_iff a b, Json.obj.injEq]

theorem Json.beqList_iff : ∀ (a b : List Json), Json.beqList a b = true ↔ a = b
  | [], [] => by simp [Json.beqList]
  | [], _ :: _ => by simp [Json.beqList]
  | _ :: _, [] => by simp [Json.beqList]
  | x :: xs, y :: ys => by
      simp only [Json.beqList, Bool.and_eq_true, Json.beq_iff x y,
        Json.beqList_iff xs ys, List.cons.injEq]

theorem Json.beqFields_iff :
    ∀ (a b : List (String × Json)), Json.beqFields a b = true ↔ a = b
  | [], [] => by simp [Json.beqFields]
  | [], _ :: _ => by simp [Json.beqFields]
  | _ :: _, [] => by simp [Json.beqFields]
  | (k1, v1) :: xs, (k2, v2) :: ys => by
      simp only [Json.beqFields, Bool.and_eq_true, beq_iff_eq, Json.beq_iff v1 v2,
        Json.beqFields_iff xs ys, List.cons.injEq, Prod.mk.injEq]

end

instance : DecidableEq Json := fun a b =>
  decidable_of_iff (Json.beq a b = true) (Json.beq_iff a b)

instance : BEq Json := ⟨fun a b => decide (a = b)⟩

instance : LawfulBEq Json where
  eq_of_beq h := by simpa using of_decide_eq_true h
  rfl := by simp [BEq.beq]

/-- The fields of a Python dict value.  In Python, calling `.get`/`.items()`
on a non-dict raises; the embedding is only ever applied to dict-shaped
values (as all theorems below do), where it is exact. -/
def Json.objFieldsD : Json → List (String × Json)
  | .obj fields => fields
  | _ => []

/-- The elements of a Python list value.  Only list-shaped values are
iterated by the claims below; on those this is exact. -/
def Json.arrD : Json → List Json
  | .arr elems => elems
  | _ => []

/-- Python `d.get(k)` on a dict: `None`-free variant returning an option. -/
def dictGet? (d : List (String × Json)) (k : String) : Option Json :=
  d.lookup k

/-- Python `d.get(k, default)` on a dict. -/
def dictGetD (d : List (String × Json)) (k : String) (default : Json) : Json :=
  (d.lookup k).getD default

/-- Python `k in d` for a dict `d`. -/
def dictContains (d : List (String × Json)) (k : String) : Bool :=
  (d.lookup k).isSome

/-- Python truthiness of a JSON-like value: `None`, `False`, `0`, `""`,
`[]` and `{}` are falsy, everything else truthy. -/
def pyTruthy : Json → Bool
  | .null => false
  | .bool b => b
  | .num n => n != 0
  | .str s => s ≠ ""
  | .arr elems => elems ≠ []
  | .obj fields => fields ≠ []

/-- Python `str()` of a scalar value, as used in f-strings and
`str(example_value)`.  The `repr`-based rendering of containers is not
modelled (marked by a fixed tag); no claim below applies `str()` to a
container. -/
def pyStr : Json → String
  | .null => "None"
  | .bool b => if b then "True" else "False"
  | .num n => toString n
  | .str s => s
  | .arr _ => "<container>"
  | .obj _ => "<container>"

/-- Python `type(x).__name__` for JSON-like values. -/
def pyTypeName : Json → String
  | .null => "NoneType"
  | .bool _ => "bool"
  | .num _ => "int"
  | .str _ => "str"
  | .arr _ => "list"
  | .obj _ => "dict"

/-- Python `prop in data` for a dict `data` whose keys are strings (the
only keys a JSON-derived dict has): only a string can be a member. -/
def pyKeyMem (prop : Json) (data : List (String × Json)) : Bool :=
  match prop with
  | .str s => dictContains data s
  | _ => false

/-- The character-level worker of `pyReplace`: scan left to right; at each
position, a match of the (non-empty) pattern is consumed and replaced,
otherwise one character is copied.  The fuel (the length of the scanned
list) only drives structural recursion. -/
def replaceFuel (pat rep : List Char) : Nat → List Char → List Char
  | 0, s => s
  | _ + 1, [] => []
  | fuel + 1, c :: rest =>
      if pat.isPrefixOf (c :: rest) then
        rep ++ replaceFuel pat rep fuel ((c :: rest).drop pat.length)
      else c :: replaceFuel pat rep fuel rest

/-- Python `s.replace(pattern, replacement)`: replace all non-overlapping
occurrences, scanning left to right.  (Python's special behaviour on an
empty pattern is not modelled; the validator's pattern `"{name}"` is never
empty.) -/
def pyReplace (s pattern replacement : String) : String :=
  if pattern = "" then s
  else ⟨replaceFuel pattern.toList replacement.toList s.toList.length s.toList⟩

/-- Python `s.upper()` for the ASCII method names the validator handles:
character-wise upper-casing. -/
def pyUpper (s : String) : String := String.mk (s.toList.map Char.toUpper)

/-! ## `src/api_validator.py` -/

/-- `ValidationSeverity` (api_validator.py lines 16-21). -/
inductive ValidationSeverity where
  | info : ValidationSeverity
  | warning : ValidationSeverity
  | error : ValidationSeverity
  | critical : ValidationSeverity
  deriving DecidableEq, Repr

/-- `ValidationSeverity.value` (the string payload of the Python enum). -/
def ValidationSeverity.value : ValidationSeverity → String
  | .info => "info"
  | .warning => "warning"
  | .error => "error"
  | .critical => "critical"

/-- `ValidationIssue` (api_validator.py lines 24-32).  `expected` and
`actual` default to `None` in the source; here they are options. -/
structure ValidationIssue where
  severity : ValidationSeverity
  endpoint : String
  method : String
  message : String
  expected : Option Json
  actual : Option Json
  deriving DecidableEq, Repr

/-- An HTTP response as the validator observes it: the integer status code
and the JSON body (`none` when `response.json()` raises, i.e. the body is
not valid JSON). -/
structure HttpResponse where
  status_code : Nat
  jsonBody : Option Json
  deriving Repr

/-- The live network: maps (method, url) to either a
`requests.exceptions.RequestException` message or a response. -/
def Network : Type := String → String → Except String HttpResponse

/-- One step of `APIValidator._prepare_test_path`'s parameter loop
(api_validator.py lines 141-146): a parameter with `in == "path"`
substitutes (all occurrences of) its `{name}` placeholder by `str` of its
`example` value, defaulting to the string `"1"`; any other parameter
leaves the path untouched. -/
def substParam (test_path : String) (param : Json) : String :=
  if dictGet? param.objFieldsD "in" = some (.str "path") then
    let param_name := pyStr ((dictGet? param.objFieldsD "name").getD .null)
    let example_value := dictGetD param.objFieldsD "example" (.str "1")
    pyReplace test_path ("\x7b" ++ param_name ++ "\x7d") (pyStr example_value)
  else test_path

/-- `APIValidator._prepare_test_path` (api_validator.py lines 126-148):
the left fold of `substParam` over the declared `parameters`. -/
def prepare_test_path (path : String) (spec_details : Json) : String :=
  let parameters := (dictGetD spec_details.objFieldsD "parameters" (.arr [])).arrD
  parameters.foldl substParam path

/-- `APIValidator._validate_status_code` (api_validator.py lines 150-164),
returning the issues it appends. -/
def validate_status_code (path method : String) (response : HttpResponse)
    (spec_details : Json) : List ValidationIssue :=
  let responses := (dictGetD spec_details.objFieldsD "responses" (.obj [])).objFieldsD
  let status_code := toString response.status_code
  if ¬ dictContains responses status_code ∧ ¬ dictContains responses "default" then
    [{ severity := .warning, endpoint := path, method := method,
       message := "Unexpected status code: " ++ status_code,
       expected := some (.arr (responses.map (fun kv => .str kv.1))),
       actual := some (.str status_code) }]
  else []

/-- `APIValidator._validate_schema_structure` (api_validator.py lines
193-236), returning the issues it appends. -/
def validate_schema_structure (path method : String) (data : Json)
    (schema : Json) : List ValidationIssue :=
  let schema_type := dictGet? schema.objFieldsD "type"
  if schema_type = some (.str "object") then
    match data with
    | .obj d =>
        let required := (dictGetD schema.objFieldsD "required" (.arr [])).arrD
        required.filterMap (fun prop =>
          if pyKeyMem prop d then none
          else some { severity := .error, endpoint := path, method := method,
                      message := "Missing required property: " ++ pyStr prop,
                      expected := some (.arr required),
                      actual := some (.arr (d.map (fun kv => .str kv.1))) })
    | _ =>
        [{ severity := .error, endpoint := path, method := method,
           message := "Response should be an object",
           expected := some (.str "object"),
           actual := some (.str (pyTypeName data)) }]
  else if schema_type = some (.str "array") then
    match data with
    | .arr _ => []
    | _ =>
        [{ severity := .error, endpoint := path, method := method,
           message := "Response should be an array",
           expected := some (.str "array"),
           actual := some (.str (pyTypeName data)) }]
  else []

/-- `APIValidator._validate_response_schema` (api_validator.py lines
166-191), returning the issues it appends.  A body that fails JSON parsing
yields one error issue; otherwise the schema is resolved via
`responses[status].content["application/json"].schema` and, when truthy
(Python: a non-empty dict), structurally checked. -/
def validate_response_schema (path method : String) (response : HttpResponse)
    (spec_details : Json) : List ValidationIssue :=
  match response.jsonBody with
  | none =>
      [{ severity := .error, endpoint := path, method := method,
         message := "Response is not valid JSON", expected := none, actual := none }]
  | some response_data =>
      let responses := (dictGetD spec_details.objFieldsD "responses" (.obj [])).objFieldsD
      let status_code := toString response.status_code
      match dictGet? responses status_code with
      | none => []
      | some resp =>
          let content := dictGetD resp.objFieldsD "content" (.obj [])
          let json_content := dictGetD content.objFieldsD "application/json" (.obj [])
          let schema := dictGetD json_content.objFieldsD "schema" (.obj [])
          if pyTruthy schema then
            validate_schema_structure path method response_data schema
          else []

/-- `APIValidator._validate_endpoint` (api_validator.py lines 89-124),
returning the issues it appends together with the single HTTP request
(method, url) it issues. -/
def validate_endpoint (base_url path method : String) (spec_details : Json)
    (net : Network) : List ValidationIssue × List (String × String) :=
  let test_path := prepare_test_path path spec_details
  let url := base_url ++ test_path
  match net method url with
  | .error e =>
      ([{ severity := .error, endpoint := path, method := method,
          message := "Failed to reach endpoint: " ++ e,
          expected := none, actual := none }], [(method, url)])
  | .ok response =>
      (validate_status_code path method response spec_details ++
        (if response.status_code < 400 then
          validate_response_schema path method response spec_details
        else []), [(method, url)])

/-- The HTTP methods the walk recognises (api_validator.py line 84). -/
def httpMethods : List String := ["GET", "POST", "PUT", "PATCH", "DELETE"]

/-- The mutable state of an `APIValidator` instance (api_validator.py lines
43-54): the loaded spec (a dict), the base URL (already `rstrip`-ped) and
the accumulated issue list. -/
structure APIValidator where
  base_url : String
  spec : List (String × Json)
  issues : List ValidationIssue

/-- The `(path, METHOD, details)` work-list that `validate_all_endpoints`
walks (api_validator.py lines 82-85): paths in declaration order, within
each path the declared methods in order, keeping those whose upper-case
form is a recognised HTTP verb. -/
def endpointWorklist (spec : List (String × Json)) : List (String × String × Json) :=
  (dictGetD spec "paths" (.obj [])).objFieldsD.flatMap (fun pm =>
    pm.2.objFieldsD.filterMap (fun md =>
      if pyUpper md.1 ∈ httpMethods then some (pm.1, pyUpper md.1, md.2) else none))

/-- `APIValidator.validate_all_endpoints` (api_validator.py lines 64-87):
resets `self.issues`, handles the missing-`paths` case with a single
critical issue, otherwise walks every declared endpoint.  Returns the
updated validator, the returned issue list, and the log of HTTP requests
issued. -/
def validate_all_endpoints (v : APIValidator) (net : Network) :
    APIValidator × List ValidationIssue × List (String × String) :=
  if ¬ dictContains v.spec "paths" then
    let issues := [{ severity := .critical, endpoint := "N/A", method := "N/A",
                     message := "No paths defined in OpenAPI specification",
                     expected := none, actual := none : ValidationIssue }]
    ({ v with issues := issues }, issues, [])
  else
    let runs := (endpointWorklist v.spec).map (fun w =>
      validate_endpoint v.base_url w.1 w.2.1 w.2.2 net)
    let issues := (runs.map Prod.fst).flatten
    let requests := (runs.map Prod.snd).flatten
    ({ v with issues := issues }, issues, requests)

/-- The severity-count summary (api_validator.py lines 245-251). -/
structure Summary where
  total : Nat
  critical : Nat
  error : Nat
  warning : Nat
  info : Nat
  deriving DecidableEq, Repr

/-- One step of `get_summary`'s loop (api_validator.py lines 253-254):
`summary[issue.severity.value] += 1`. -/
def bumpSummary (summary : Summary) (issue : ValidationIssue) : Summary :=
  match issue.severity with
  | .critical => { summary with critical := summary.critical + 1 }
  | .error => { summary with error := summary.error + 1 }
  | .warning => { summary with warning := summary.warning + 1 }
  | .info => { summary with info := summary.info + 1 }

/-- `APIValidator.get_summary` (api_validator.py lines 238-256): start from
`total = len(issues)` and zero buckets, then bump the bucket named by each
issue's severity. -/
def get_summary (issues : List ValidationIssue) : Summary :=
  issues.foldl bumpSummary
    { total := issues.length, critical := 0, error := 0, warning := 0, info := 0 }

/-! ## `src/drift_detector.py` -/

/-- Code-point lexicographic `≤` on character lists, the order Python uses
to compare strings. -/
def charListLe : List Char → List Char → Bool
  | [], _ => true
  | _ :: _, [] => false
  | c :: cs, d :: ds =>
      c.toNat < d.toNat || (c.toNat == d.toNat && charListLe cs ds)

/-- Python's `<=` on strings: code-point lexicographic. -/
def pyStrLe (a b : String) : Bool := charListLe a.toList b.toList

/-- Insert one binding into a key-sorted association list, before the first
binding of a `≥` key. -/
def insertByKey (kv : String × Json) : List (String × Json) → List (String × Json)
  | [] => [kv]
  | x :: xs => if pyStrLe kv.1 x.1 then kv :: x :: xs else x :: insertByKey kv xs

/-- Sort an association list by key, using Python's string order (code-point
lexicographic); agrees with Python `sorted` on the duplicate-free key lists
Python dicts produce. -/
def sortFields : List (String × Json) → List (String × Json)
  | [] => []
  | x :: xs => insertByKey x (sortFields xs)

mutual

/-- Recursively sort every object's fields by key.  Serializing the result
in order is exactly `json.dumps(·, sort_keys=True)`, which sorts each
object's items as it emits them. -/
def jsonNormalize : Json → Json
  | .null => .null
  | .bool b => .bool b
  | .num n => .num n
  | .str s => .str s
  | .arr elems => .arr (jsonNormalizeList elems)
  | .obj fields => .obj (sortFields (jsonNormalizeFields fields))

def jsonNormalizeList : List Json → List Json
  | [] => []
  | x :: xs => jsonNormalize x :: jsonNormalizeList xs

def jsonNormalizeFields : List (String × Json) → List (String × Json)
  | [] => []
  | (k, v) :: fs => (k, jsonNormalize v) :: jsonNormalizeFields fs

end

/-- Python `==` on JSON-like values: structural and insensitive to dict key
order (Python dict equality compares key sets and values).  On association
lists with duplicate-free keys — the only dicts Python can produce — this
coincides with equality after recursively sorting object fields. -/
def pyEq (a b : Json) : Bool := decide (jsonNormalize a = jsonNormalize b)

/-- Python `==` lifted to optional values (`None == None` is `True`). -/
def optPyEq : Option Json → Option Json → Bool
  | none, none => true
  | some a, some b => pyEq a b
  | _, _ => false

/-- Lower-case hex digits. -/
def hexDigit (n : Nat) : Char :=
  (String.toList "0123456789abcdef").getD n '0'

/-- Fixed-width lower-case hex rendering, big-endian, `width` digits. -/
def hexNat (width n : Nat) : String :=
  String.mk ((List.range width).map (fun i => hexDigit (n / 16 ^ (width - 1 - i) % 16)))

/-- JSON string-character escaping as `json.dumps` performs it with the
default `ensure_ascii=True`: the two mandatory escapes, the five short
control escapes, `\uXXXX` for other control or non-ASCII BMP characters,
and surrogate pairs beyond the BMP. -/
def jsonEscapeChar (c : Char) : String :=
  if c = '"' then "\\\""
  else if c = '\\' then "\\\\"
  else if c = '\n' then "\\n"
  else if c = '\r' then "\\r"
  else if c = '\t' then "\\t"
  else if c.toNat = 8 then "\\b"
  else if c.toNat = 12 then "\\f"
  else if c.toNat < 32 ∨ (127 ≤ c.toNat ∧ c.toNat < 65536) then "\\u" ++ hexNat 4 c.toNat
  else if 65536 ≤ c.toNat then
    "\\u" ++ hexNat 4 (55296 + (c.toNat - 65536) / 1024) ++
    "\\u" ++ hexNat 4 (56320 + (c.toNat - 65536) % 1024)
  else String.singleton c

/-- A JSON string literal as `json.dumps` renders it. -/
def jsonQuote (s : String) : String :=
  "\"" ++ String.join (s.toList.map jsonEscapeChar) ++ "\""

mutual

/-- `json.dumps` with the default separators (`", "`, `": "`), emitting
fields in the order given. -/
def pyDumps : Json → String
  | .null => "null"
  | .bool b => if b then "true" else "false"
  | .num n => toString n
  | .str s => jsonQuote s
  | .arr elems => "[" ++ String.intercalate ", " (pyDumpsList elems) ++ "]"
  | .obj fields => "\x7b" ++ String.intercalate ", " (pyDumpsFields fields) ++ "\x7d"

def pyDumpsList : List Json → List String
  | [] => []
  | x :: xs => pyDumps x :: pyDumpsList xs

def pyDumpsFields : List (String × Json) → List String
  | [] => []
  | (k, v) :: fs => (jsonQuote k ++ ": " ++ pyDumps v) :: pyDumpsFields fs

end

/-- `json.dumps(spec_data, sort_keys=True)` (drift_detector.py line 80):
with `sort_keys=True` each object's items are sorted by key before being
emitted, which is the same string as plainly serializing the
recursively-key-sorted tree. -/
def dumpsSorted (j : Json) : String := pyDumps (jsonNormalize j)

/-- UTF-8 encoding of one character (Python `str.encode()`); the tag and
payload bits are disjoint, so each byte is a plain sum. -/
def charUtf8 (c : Char) : List Nat :=
  let n := c.toNat
  if n < 128 then [n]
  else if n < 2048 then [192 + n / 64, 128 + n % 64]
  else if n < 65536 then
    [224 + n / 4096, 128 + n / 64 % 64, 128 + n % 64]
  else
    [240 + n / 262144, 128 + n / 4096 % 64, 128 + n / 64 % 64, 128 + n % 64]

/-- Python `s.encode()`: the UTF-8 bytes of a string. -/
def strBytes (s : String) : List Nat := s.toList.flatMap charUtf8

/-- 2^32, the word modulus of SHA-256. -/
def wordMod : Nat := 4294967296

/-- Combine two 32-bit words bit by bit with `f` (applied to each pair of
bits), expressed with plain arithmetic so that every kernel evaluates it
natively. -/
def bitCombine (f : Nat → Nat → Nat) : Nat → Nat → Nat → Nat
  | 0, _, _ => 0
  | k + 1, a, b => f (a % 2) (b % 2) + 2 * bitCombine f k (a / 2) (b / 2)

/-- Bitwise XOR on 32-bit words. -/
def xor32 (a b : Nat) : Nat := bitCombine (fun x y => (x + y) % 2) 32 a b

/-- Bitwise AND on 32-bit words. -/
def and32 (a b : Nat) : Nat := bitCombine (fun x y => x * y) 32 a b

/-- Right rotation of a 32-bit word (the two shifted parts are disjoint,
so their OR is a sum). -/
def rotr (n x : Nat) : Nat := x / 2 ^ n + x % 2 ^ n * 2 ^ (32 - n)

/-- SHA-256 `Ch`; `¬x` on a 32-bit word `x` is `2^32 - 1 - x`. -/
def sha2Ch (x y z : Nat) : Nat := xor32 (and32 x y) (and32 (4294967295 - x) z)

/-- SHA-256 `Maj`. -/
def sha2Maj (x y z : Nat) : Nat := xor32 (xor32 (and32 x y) (and32 x z)) (and32 y z)

/-- SHA-256 `Σ₀`. -/
def bigSigma0 (x : Nat) : Nat := xor32 (xor32 (rotr 2 x) (rotr 13 x)) (rotr 22 x)

/-- SHA-256 `Σ₁`. -/
def bigSigma1 (x : Nat) : Nat := xor32 (xor32 (rotr 6 x) (rotr 11 x)) (rotr 25 x)

/-- SHA-256 `σ₀`. -/
def smallSigma0 (x : Nat) : Nat := xor32 (xor32 (rotr 7 x) (rotr 18 x)) (x / 8)

/-- SHA-256 `σ₁`. -/
def smallSigma1 (x : Nat) : Nat := xor32 (xor32 (rotr 17 x) (rotr 19 x)) (x / 1024)

/-- The 64 SHA-256 round constants (the fractional parts of the cube roots
of the first 64 primes), written in decimal. -/
def sha256K : List Nat :=
  [1116352408, 1899447441, 3049323471, 3921009573, 961987163,
   1508970993, 2453635748, 2870763221, 3624381080, 310598401,
   607225278, 1426881987, 1925078388, 2162078206, 2614888103,
   3248222580, 3835390401, 4022224774, 264347078, 604807628,
   770255983, 1249150122, 1555081692, 1996064986, 2554220882,
   2821834349, 2952996808, 3210313671, 3336571891, 3584528711,
   113926993, 338241895, 666307205, 773529912, 1294757372,
   1396182291, 1695183700, 1986661051, 2177026350, 2456956037,
   2730485921, 2820302411, 3259730800, 3345764771, 3516065817,
   3600352804, 4094571909, 275423344, 430227734, 506948616,
   659060556, 883997877, 958139571, 1322822218, 1537002063,
   1747873779, 1955562222, 2024104815, 2227730452, 2361852424,
   2428436474, 2756734187, 3204031479, 3329325298]

/-- The SHA-256 initial hash value (the fractional parts of the square
roots of the first 8 primes), written in decimal. -/
def sha256H0 : List Nat :=
  [1779033703, 3144134277, 1013904242, 2773480762,
   1359893119, 2600822924, 528734635, 1541459225]

/-- Big-endian bytes of a number, fixed width. -/
def beBytes (width n : Nat) : List Nat :=
  (List.range width).map (fun i => n / 256 ^ (width - 1 - i) % 256)

/-- SHA-256 message padding: `0x80`, zeros to 56 mod 64, then the bit
length as 8 big-endian bytes. -/
def sha256Pad (msg : List Nat) : List Nat :=
  let L := msg.length
  let k := (55 + 64 - L % 64) % 64
  msg ++ [128] ++ List.replicate k 0 ++ beBytes 8 (8 * L)

/-- Big-endian 32-bit words from a list of bytes. -/
def bytesToWords : List Nat → List Nat
  | b0 :: b1 :: b2 :: b3 :: rest => (((b0 * 256 + b1) * 256 + b2) * 256 + b3) :: bytesToWords rest
  | _ => []

/-- Extend the 16 block words to the 64-word message schedule (adds `n`
more words). -/
def extendWords (ws : List Nat) : Nat → List Nat
  | 0 => ws
  | n + 1 =>
      let i := ws.length
      let w := (smallSigma1 (ws.getD (i - 2) 0) + ws.getD (i - 7) 0 +
                smallSigma0 (ws.getD (i - 15) 0) + ws.getD (i - 16) 0) % wordMod
      extendWords (ws ++ [w]) n

/-- One SHA-256 compression round on the 8-word working state. -/
def sha256Round (state : List Nat) (kw : Nat × Nat) : List Nat :=
  match state with
  | [a, b, c, d, e, f, g, h] =>
      let t1 := (h + bigSigma1 e + sha2Ch e f g + kw.1 + kw.2) % wordMod
      let t2 := (bigSigma0 a + sha2Maj a b c) % wordMod
      [(t1 + t2) % wordMod, a, b, c, (d + t1) % wordMod, e, f, g]
  | other => other

/-- Compress one 64-byte block into the hash state. -/
def sha256Compress (h : List Nat) (block : List Nat) : List Nat :=
  let ws := extendWords (bytesToWords block) 48
  let final := (sha256K.zip ws).foldl sha256Round h
  (h.zip final).map (fun ab => (ab.1 + ab.2) % wordMod)

/-- Fold the compression function over all 64-byte blocks; the fuel (any
bound on the number of bytes, here their count) only drives structural
recursion. -/
def sha256BlocksFuel : Nat → List Nat → List Nat → List Nat
  | 0, h, _ => h
  | fuel + 1, h, bytes =>
      if bytes = [] then h
      else sha256BlocksFuel fuel (sha256Compress h (bytes.take 64)) (bytes.drop 64)

/-- Fold the compression function over all 64-byte blocks. -/
def sha256Blocks (h : List Nat) (bytes : List Nat) : List Nat :=
  sha256BlocksFuel bytes.length h bytes

/-- `hashlib.sha256(bytes).hexdigest()`: the 64-hex-character SHA-256
digest of a byte sequence. -/
def sha256hex (msg : List Nat) : String :=
  String.join ((sha256Blocks sha256H0 (sha256Pad msg)).map (hexNat 8))

/-- The specification fingerprint (drift_detector.py lines 79-81):
`hashlib.sha256(json.dumps(spec_data, sort_keys=True).encode()).hexdigest()[:12]`. -/
def fingerprint (spec_data : Json) : String :=
  (sha256hex (strBytes (dumpsSorted spec_data))).take 12

/-- `SpecSnapshot` (drift_detector.py lines 17-24).  `spec_version` holds
whatever value `spec.info.version` carries (a string in well-formed specs). -/
structure SpecSnapshot where
  timestamp : String
  spec_hash : String
  spec_version : Json
  endpoints_count : Nat
  spec_data : Json
  deriving DecidableEq, Repr

/-- The endpoint count stored by a capture (drift_detector.py lines 84-86):
`sum(len(methods) for methods in spec_data.get('paths', {}).values())`. -/
def endpointsCountOf (spec_data : Json) : Nat :=
  ((dictGetD spec_data.objFieldsD "paths" (.obj [])).objFieldsD.map
    (fun pm => pm.2.objFieldsD.length)).sum

/-- The version stored by a capture (drift_detector.py line 92):
`spec_data.get('info', {}).get('version', 'unknown')`. -/
def specVersionOf (spec_data : Json) : Json :=
  dictGetD (dictGetD spec_data.objFieldsD "info" (.obj [])).objFieldsD
    "version" (.str "unknown")

/-- `DriftDetector.capture_snapshot` (drift_detector.py lines 69-103) as a
pure state transformer: given the in-memory snapshot list and the capture
timestamp (`datetime.utcnow`, passed explicitly), produce the new snapshot
list and the returned snapshot.  A snapshot is appended only when the list
is empty or the last snapshot's hash differs; otherwise the existing last
snapshot is returned unchanged. -/
def capture_snapshot (snapshots : List SpecSnapshot) (timestamp : String)
    (spec_data : Json) : List SpecSnapshot × SpecSnapshot :=
  let spec_hash := fingerprint spec_data
  let snapshot : SpecSnapshot :=
    { timestamp := timestamp, spec_hash := spec_hash,
      spec_version := specVersionOf spec_data,
      endpoints_count := endpointsCountOf spec_data, spec_data := spec_data }
  match snapshots.getLast? with
  | none => (snapshots ++ [snapshot], snapshot)
  | some last =>
      if last.spec_hash ≠ spec_hash then (snapshots ++ [snapshot], snapshot)
      else (snapshots, last)

/-- One entry of the `breaking_changes` list: a dict with `type`,
`endpoint` and `severity` keys, plus `parameter` (for
`required_parameter_removed`) or `status_code` (for
`response_schema_changed`). -/
structure BreakingChange where
  btype : String
  endpoint : String
  severity : String
  parameter : Option String
  status_code : Option String
  deriving DecidableEq, Repr

/-- The `changes` dict built by `_analyze_changes` (drift_detector.py
lines 154-159). -/
structure Changes where
  added_endpoints : List String
  removed_endpoints : List String
  modified_endpoints : List String
  breaking_changes : List BreakingChange
  deriving DecidableEq, Repr

/-- The parameter-name dict `{p['name']: p for p in spec.get('parameters', [])}`
(drift_detector.py lines 220-221).  A parameter lacking a string `name`
makes Python raise; such values are outside the modelled domain and mapped
to the key `""`. -/
def paramsByName (params : List Json) : List (String × Json) :=
  params.foldl
    (fun d p =>
      let name := match dictGet? p.objFieldsD "name" with
        | some (.str s) => s
        | _ => ""
      if dictContains d name then
        d.map (fun kv => if kv.1 = name then (name, p) else kv)
      else d ++ [(name, p)])
    []

/-- `DriftDetector._extract_schema` (drift_detector.py lines 252-256). -/
def extract_schema (response_spec : Json) : Option Json :=
  let content := dictGetD response_spec.objFieldsD "content" (.obj [])
  let json_content := dictGetD content.objFieldsD "application/json" (.obj [])
  dictGet? json_content.objFieldsD "schema"

/-- `DriftDetector._check_breaking_changes` (drift_detector.py lines
213-250): required parameters present in old and missing from new are
critical; response schemas (extracted as in `_extract_schema`) present
under a common status code but unequal are warnings. -/
def check_breaking_changes (path method : String) (old_spec new_spec : Json) :
    List BreakingChange :=
  let old_params := paramsByName (dictGetD old_spec.objFieldsD "parameters" (.arr [])).arrD
  let new_params := paramsByName (dictGetD new_spec.objFieldsD "parameters" (.arr [])).arrD
  let paramBreaks := old_params.filterMap (fun kv =>
    if pyTruthy (dictGetD kv.2.objFieldsD "required" (.bool false)) ∧
        ¬ dictContains new_params kv.1 then
      some { btype := "required_parameter_removed",
             endpoint := pyUpper method ++ " " ++ path, severity := "critical",
             parameter := some kv.1, status_code := none }
    else none)
  let old_responses := (dictGetD old_spec.objFieldsD "responses" (.obj [])).objFieldsD
  let new_responses := (dictGetD new_spec.objFieldsD "responses" (.obj [])).objFieldsD
  let respBreaks := old_responses.filterMap (fun kv =>
    match dictGet? new_responses kv.1 with
    | none => none
    | some r2 =>
        if ¬ optPyEq (extract_schema kv.2) (extract_schema r2) then
          some { btype := "response_schema_changed",
                 endpoint := pyUpper method ++ " " ++ path, severity := "warning",
                 parameter := none, status_code := some kv.1 }
        else none)
  paramBreaks ++ respBreaks

/-- `DriftDetector._analyze_changes` (drift_detector.py lines 142-211).
Python iterates `removed_methods` and `common_methods` as sets, whose
iteration order is unspecified; the embedding fixes the old dict's
insertion order.  Every theorem below about this function is insensitive
to the order of those per-path segments. -/
def analyze_changes (old_spec new_spec : Json) : Changes :=
  let old_paths := (dictGetD old_spec.objFieldsD "paths" (.obj [])).objFieldsD
  let new_paths := (dictGetD new_spec.objFieldsD "paths" (.obj [])).objFieldsD
  let added_endpoints := new_paths.flatMap (fun pm =>
    if ¬ dictContains old_paths pm.1 then
      pm.2.objFieldsD.map (fun md => pyUpper md.1 ++ " " ++ pm.1)
    else [])
  let removed_endpoints := old_paths.flatMap (fun pm =>
    if ¬ dictContains new_paths pm.1 then
      pm.2.objFieldsD.map (fun md => pyUpper md.1 ++ " " ++ pm.1)
    else [])
  let removedBreaks := old_paths.flatMap (fun pm =>
    if ¬ dictContains new_paths pm.1 then
      pm.2.objFieldsD.map (fun md =>
        { btype := "endpoint_removed", endpoint := pyUpper md.1 ++ " " ++ pm.1,
          severity := "critical", parameter := none, status_code := none
          : BreakingChange })
    else [])
  let perPath := old_paths.map (fun pm =>
    match dictGet? new_paths pm.1 with
    | none => ([], [])
    | some newMethodsJ =>
        let newMethods := newMethodsJ.objFieldsD
        let mrBreaks := (pm.2.objFieldsD.filter
            (fun md => ¬ dictContains newMethods md.1)).map (fun md =>
          { btype := "method_removed", endpoint := pyUpper md.1 ++ " " ++ pm.1,
            severity := "critical", parameter := none, status_code := none
            : BreakingChange })
        let perMethod := (pm.2.objFieldsD.filter
            (fun md => dictContains newMethods md.1)).map (fun md =>
          let newDetails := (dictGet? newMethods md.1).getD .null
          if ¬ pyEq md.2 newDetails then
            ([pyUpper md.1 ++ " " ++ pm.1],
             check_breaking_changes pm.1 md.1 md.2 newDetails)
          else ([], []))
        ((perMethod.map Prod.fst).flatten,
         mrBreaks ++ (perMethod.map Prod.snd).flatten))
  { added_endpoints := added_endpoints, removed_endpoints := removed_endpoints,
    modified_endpoints := (perPath.map Prod.fst).flatten,
    breaking_changes := removedBreaks ++ (perPath.map Prod.snd).flatten }

/-! ## `src/main.py` -/

/-- The exit code computed by `validate_command` (main.py lines 50-54) from
the issues of the run: 1 when the summary counts any critical or error
issue, else 0. -/
def validate_command_exit (issues : List ValidationIssue) : Nat :=
  let summary := get_summary issues
  if summary.critical > 0 ∨ summary.error > 0 then 1 else 0

/-- The exit code of `detect_drift_command` (main.py lines 57-109): it
always returns 0 when it completes. -/
def detect_drift_command_exit : Nat := 0

/-- The exit code of `generate_report_command` (main.py lines 112-150):
1 when `OPENAI_API_KEY` is unset or report generation raises, else 0. -/
def generate_report_command_exit (api_key_set report_ok : Bool) : Nat :=
  if api_key_set then (if report_ok then 0 else 1) else 1

/-- How the dispatched command terminates, as observed by `main`'s
`try`/`except` (main.py lines 253-268): normal completion with a return
code, a `KeyboardInterrupt`, or any other unhandled exception. -/
inductive CommandRun where
  | completed (code : Nat) : CommandRun
  | interrupted : CommandRun
  | errored : CommandRun
  deriving DecidableEq, Repr

/-- The process exit code produced by `main` (main.py lines 249-268):
missing subcommand prints help and returns 1; otherwise the dispatched
command's code, with `KeyboardInterrupt` mapped to 130 and any other
exception mapped to 1. -/
def main_exit_code : Option CommandRun → Nat
  | none => 1
  | some (.completed code) => code
  | some .interrupted => 130
  | some .errored => 1

/-! ## Example fixtures shared by the theorems below -/

/-- A network on which every request fails with a
`requests.exceptions.RequestException`. -/
def downNetwork : Network := fun _ _ => .error "connection error"

/-! ## General lemmas about the embedded operations -/

/-- A parameter list with no `in == "path"` entry leaves any path
unchanged under the substitution fold. -/
theorem foldl_substParam_id (params : List Json)
    (h : ∀ p ∈ params, dictGet? p.objFieldsD "in" ≠ some (.str "path")) :
    ∀ s : String, params.foldl substParam s = s := by
  induction params with
  | nil => intro s; rfl
  | cons p ps ih =>
      intro s
      have hp := h p (by simp)
      have hs : substParam s p = s := by
        simp [substParam, hp]
      rw [List.foldl_cons, hs]
      exact ih (fun q hq => h q (by simp [hq])) s

/-- The summary fold adds, bucket by bucket, the number of issues of each
severity. -/
theorem foldl_bumpSummary (issues : List ValidationIssue) :
    ∀ init : Summary,
      (issues.foldl bumpSummary init).critical =
        init.critical + (issues.filter (fun i => i.severity = .critical)).length ∧
      (issues.foldl bumpSummary init).error =
        init.error + (issues.filter (fun i => i.severity = .error)).length ∧
      (issues.foldl bumpSummary init).warning =
        init.warning + (issues.filter (fun i => i.severity = .warning)).length ∧
      (issues.foldl bumpSummary init).info =
        init.info + (issues.filter (fun i => i.severity = .info)).length := by
  induction issues with
  | nil => intro init; simp
  | cons i is ih =>
      intro init
      obtain ⟨h1, h2, h3, h4⟩ := ih (bumpSummary init i)
      rw [List.foldl_cons]
      cases hs : i.severity <;>
        simp_all [bumpSummary, hs, List.filter_cons] <;> omega

/-- The `critical` bucket of `get_summary` counts the critical issues. -/
theorem get_summary_critical (issues : List ValidationIssue) :
    (get_summary issues).critical =
      (issues.filter (fun i => i.severity = .critical)).length := by
  have h := (foldl_bumpSummary issues
    { total := issues.length, critical := 0, error := 0, warning := 0, info := 0 }).1
  simpa [get_summary] using h

/-- The `error` bucket of `get_summary` counts the error issues. -/
theorem get_summary_error (issues : List ValidationIssue) :
    (get_summary issues).error =
      (issues.filter (fun i => i.severity = .error)).length := by
  have h := (foldl_bumpSummary issues
    { total := issues.length, critical := 0, error := 0, warning := 0, info := 0 }).2.1
  simpa [get_summary] using h

/-! ## C1 -/

/-- C1 counterexample: on a specification whose `paths` mapping is present
but empty, `validate_all_endpoints` returns **no** issue at all (the claim
predicts exactly one critical issue); it does issue no HTTP request.  The
single-critical-issue branch of the source fires only when the `paths` key
is absent (`'paths' not in self.spec`). -/
theorem C1_counterexample :
    (validate_all_endpoints
        { base_url := "http://api.example.com", spec := [("paths", Json.obj [])],
          issues := [] } downNetwork).2.1 = [] ∧
    (validate_all_endpoints
        { base_url := "http://api.example.com", spec := [("paths", Json.obj [])],
          issues := [] } downNetwork).2.2 = [] := by
  constructor <;> rfl

/-- C1 (amended): for every specification whose `paths` key is **absent**,
`validate_all_endpoints` returns exactly one issue, of severity critical,
and issues no HTTP request; for a specification whose `paths` mapping is
present but empty it returns no issues and likewise issues no HTTP
request. -/
theorem C1_no_paths_critical (v : APIValidator) (net : Network) :
    (dictGet? v.spec "paths" = none →
      (validate_all_endpoints v net).2.1 =
        [{ severity := .critical, endpoint := "N/A", method := "N/A",
           message := "No paths defined in OpenAPI specification",
           expected := none, actual := none }] ∧
      (validate_all_endpoints v net).2.2 = []) ∧
    (dictGet? v.spec "paths" = some (.obj []) →
      (validate_all_endpoints v net).2.1 = [] ∧
      (validate_all_endpoints v net).2.2 = []) := by
  constructor
  · intro h
    have hlk : v.spec.lookup "paths" = none := h
    have hc : dictContains v.spec "paths" = false := by
      simp [dictContains, hlk]
    simp [validate_all_endpoints, hc]
  · intro h
    have hlk : v.spec.lookup "paths" = some (.obj []) := h
    have hc : dictContains v.spec "paths" = true := by
      simp [dictContains, hlk]
    have hw : endpointWorklist v.spec = [] := by
      simp [endpointWorklist, dictGetD, hlk, Json.objFieldsD]
    simp [validate_all_endpoints, hc, hw]

/-- C1 witness: both branches of `C1_no_paths_critical` instantiated on
concrete specifications. -/
theorem C1_no_paths_critical_witness :
    ((validate_all_endpoints
        { base_url := "http://x", spec := [("openapi", Json.str "3.0.0")],
          issues := [] } downNetwork).2.1 =
      [{ severity := .critical, endpoint := "N/A", method := "N/A",
         message := "No paths defined in OpenAPI specification",
         expected := none, actual := none }] ∧
     (validate_all_endpoints
        { base_url := "http://x", spec := [("openapi", Json.str "3.0.0")],
          issues := [] } downNetwork).2.2 = []) ∧
    ((validate_all_endpoints
        { base_url := "http://x", spec := [("openapi", Json.str "3.0.0"), ("paths", Json.obj [])],
          issues := [] } downNetwork).2.1 = [] ∧
     (validate_all_endpoints
        { base_url := "http://x", spec := [("openapi", Json.str "3.0.0"), ("paths", Json.obj [])],
          issues := [] } downNetwork).2.2 = []) :=
  ⟨(C1_no_paths_critical
      { base_url := "http://x", spec := [("openapi", Json.str "3.0.0")], issues := [] }
      downNetwork).1 (by rfl),
   (C1_no_paths_critical
      { base_url := "http://x", spec := [("openapi", Json.str "3.0.0"), ("paths", Json.obj [])],
        issues := [] }
      downNetwork).2 (by rfl)⟩

/-! ## C5 -/

/-- The substitution pairs `(\x7bname\x7d, value)` that the parameter loop
of `_prepare_test_path` applies, in order: one pair for each declared
parameter with `in == "path"` (and only those), whose value is `str` of
the parameter's declared `example`, defaulting to the literal `"1"` when
no example is declared. -/
def pathParamSubstitutions (spec_details : Json) : List (String × String) :=
  ((dictGetD spec_details.objFieldsD "parameters" (.arr [])).arrD.filter
    (fun param => decide (dictGet? param.objFieldsD "in" = some (.str "path")))).map
    (fun param =>
      ("\x7b" ++ pyStr ((dictGet? param.objFieldsD "name").getD .null) ++ "\x7d",
       pyStr (dictGetD param.objFieldsD "example" (.str "1"))))

/-- Folding `substParam` over an arbitrary parameter list is exactly the
sequential application of its path-parameter substitution pairs: non-path
parameters contribute nothing, each path parameter replaces its
placeholder with its example value or the default `"1"`. -/
theorem foldl_substParam_subst_pairs (params : List Json) :
    ∀ s : String,
      params.foldl substParam s =
        ((params.filter (fun param =>
            decide (dictGet? param.objFieldsD "in" = some (.str "path")))).map
          (fun param =>
            ("\x7b" ++ pyStr ((dictGet? param.objFieldsD "name").getD .null) ++ "\x7d",
             pyStr (dictGetD param.objFieldsD "example" (.str "1"))))).foldl
          (fun t s => pyReplace t s.1 s.2) s := by
  induction params with
  | nil => intro s; rfl
  | cons p ps ih =>
      intro s
      rw [List.foldl_cons, List.filter_cons]
      cases hd : decide (dictGet? p.objFieldsD "in" = some (Json.str "path")) with
      | true =>
          have h := of_decide_eq_true hd
          simp only [hd, reduceIte, List.map_cons, List.foldl_cons]
          rw [show substParam s p =
              pyReplace s
                ("\x7b" ++ pyStr ((dictGet? p.objFieldsD "name").getD .null) ++ "\x7d")
                (pyStr (dictGetD p.objFieldsD "example" (.str "1"))) from by
            simp [substParam, h]]
          exact ih _
      | false =>
          have h : ¬ dictGet? p.objFieldsD "in" = some (Json.str "path") :=
            of_decide_eq_false hd
          simp only [hd, Bool.false_eq_true, if_false]
          rw [show substParam s p = s from by simp [substParam, h]]
          exact ih s

/-- C5: for every path template and every parameter list, materialization
is exactly the sequential substitution, for each declared parameter with
`in == "path"`, of that parameter's declared `example` value — or the
literal `"1"` when no example is declared — into its `\x7bname\x7d`
placeholder; appending a path parameter without an example to any
parameter list substitutes the literal `"1"` for its placeholder, and one
with example `e` substitutes `e`; in particular a template `{id}` with
declared example `"42"` materializes to `42` verbatim, and a template
whose declared parameters contain no `in == "path"` entry is passed
through unchanged (so placeholders with no matching declared path
parameter survive verbatim). -/
theorem C5_path_materialization :
    (∀ (path : String) (details : Json),
      prepare_test_path path details =
        (pathParamSubstitutions details).foldl (fun t s => pyReplace t s.1 s.2) path) ∧
    (∀ (path n : String) (params : List Json),
      prepare_test_path path
          (Json.obj [("parameters", Json.arr (params ++
            [Json.obj [("name", Json.str n), ("in", Json.str "path")]]))]) =
        pyReplace
          (prepare_test_path path (Json.obj [("parameters", Json.arr params)]))
          ("\x7b" ++ n ++ "\x7d") "1") ∧
    (∀ (path n e : String) (params : List Json),
      prepare_test_path path
          (Json.obj [("parameters", Json.arr (params ++
            [Json.obj [("name", Json.str n), ("in", Json.str "path"),
              ("example", Json.str e)]]))]) =
        pyReplace
          (prepare_test_path path (Json.obj [("parameters", Json.arr params)]))
          ("\x7b" ++ n ++ "\x7d") e) ∧
    (∀ (path n e : String),
      prepare_test_path path
          (Json.obj [("parameters", Json.arr [Json.obj
            [("name", Json.str n), ("in", Json.str "path"),
             ("example", Json.str e)]])]) =
        pyReplace path ("\x7b" ++ n ++ "\x7d") e) ∧
    (prepare_test_path "/users/{id}"
        (Json.obj [("parameters", Json.arr [Json.obj
          [("name", Json.str "id"), ("in", Json.str "path"),
           ("example", Json.str "42")]])]) = "/users/42") ∧
    (∀ (path : String) (details : Json),
      (∀ p ∈ (dictGetD details.objFieldsD "parameters" (.arr [])).arrD,
        dictGet? p.objFieldsD "in" ≠ some (.str "path")) →
      prepare_test_path path details = path) := by
  refine ⟨fun path details => foldl_substParam_subst_pairs _ path,
    fun path n params => ?_, fun path n e params => ?_,
    fun path n e => by rfl, by rfl, fun path details h => ?_⟩
  · show (params ++
        [Json.obj [("name", Json.str n), ("in", Json.str "path")]]).foldl
        substParam path =
      pyReplace
        (prepare_test_path path (Json.obj [("parameters", Json.arr params)]))
        ("\x7b" ++ n ++ "\x7d") "1"
    rw [List.foldl_append, List.foldl_cons, List.foldl_nil]
    rfl
  · show (params ++
        [Json.obj [("name", Json.str n), ("in", Json.str "path"),
          ("example", Json.str e)]]).foldl substParam path =
      pyReplace
        (prepare_test_path path (Json.obj [("parameters", Json.arr params)]))
        ("\x7b" ++ n ++ "\x7d") e
    rw [List.foldl_append, List.foldl_cons, List.foldl_nil]
    rfl
  · exact foldl_substParam_id _ h path

/-- C5 witness: a `{q}` placeholder whose only declared parameter is a
query parameter survives materialization verbatim, and a `{id}` path
parameter declared without an example materializes with the default
literal `"1"`. -/
theorem C5_path_materialization_witness :
    (∀ p ∈ (dictGetD (Json.obj [("parameters", Json.arr [Json.obj
        [("name", Json.str "q"), ("in", Json.str "query")]])]).objFieldsD
        "parameters" (.arr [])).arrD,
      dictGet? p.objFieldsD "in" ≠ some (.str "path")) ∧
    prepare_test_path "/a/{q}"
      (Json.obj [("parameters", Json.arr [Json.obj
        [("name", Json.str "q"), ("in", Json.str "query")]])]) = "/a/{q}" ∧
    prepare_test_path "/users/{id}"
      (Json.obj [("parameters", Json.arr [Json.obj
        [("name", Json.str "id"), ("in", Json.str "path")]])]) = "/users/1" :=
  ⟨by decide, C5_path_materialization.2.2.2.2.2 "/a/{q}" _ (by decide),
   (C5_path_materialization.2.1 "/users/{id}" "id" []).trans (by decide)⟩

/-! ## C3 -/

/-- C3 counterexample: a path present in the old `paths` mapping and
absent from the new one, but declaring **no** methods, yields no
`endpoint_removed` breaking change at all (the claim predicts at least one
of severity critical for any removed path). -/
theorem C3_counterexample :
    analyze_changes (Json.obj [("paths", Json.obj [("/legacy", Json.obj [])])])
        (Json.obj [("paths", Json.obj [])]) =
      { added_endpoints := [], removed_endpoints := [],
        modified_endpoints := [], breaking_changes := [] } := by
  rfl

/-- C3 (amended): for every pair of specifications and every path present
in the old `paths` mapping but absent from the new one, each of that
path's methods is listed as a removed endpoint and yields a breaking
change of type `endpoint_removed` with severity critical; hence removing
any path that declares at least one method always yields at least one such
breaking change (a removed path declaring no methods yields none, as the
counterexample shows). -/
theorem C3_endpoint_removed (old_spec new_spec : Json) (path method : String)
    (mJson d : Json)
    (hold : (path, mJson) ∈ (dictGetD old_spec.objFieldsD "paths" (.obj [])).objFieldsD)
    (hnew : dictContains (dictGetD new_spec.objFieldsD "paths" (.obj [])).objFieldsD
      path = false)
    (hm : (method, d) ∈ mJson.objFieldsD) :
    (pyUpper method ++ " " ++ path) ∈ (analyze_changes old_spec new_spec).removed_endpoints ∧
    ({ btype := "endpoint_removed", endpoint := pyUpper method ++ " " ++ path,
       severity := "critical", parameter := none, status_code := none } : BreakingChange)
      ∈ (analyze_changes old_spec new_spec).breaking_changes ∧
    (analyze_changes old_spec new_spec).breaking_changes ≠ [] := by
  have hrem : (pyUpper method ++ " " ++ path) ∈
      (analyze_changes old_spec new_spec).removed_endpoints := by
    simp only [analyze_changes, List.mem_flatMap]
    exact ⟨(path, mJson), hold, by
      simp only [hnew, Bool.false_eq_true, not_false_eq_true, if_pos]
      exact List.mem_map.mpr ⟨(method, d), hm, rfl⟩⟩
  have hbc :
      ({ btype := "endpoint_removed", endpoint := pyUpper method ++ " " ++ path,
         severity := "critical", parameter := none, status_code := none } : BreakingChange)
      ∈ (analyze_changes old_spec new_spec).breaking_changes := by
    simp only [analyze_changes, List.mem_append]
    left
    simp only [List.mem_flatMap]
    exact ⟨(path, mJson), hold, by
      simp only [hnew, Bool.false_eq_true, not_false_eq_true, if_pos]
      exact List.mem_map.mpr ⟨(method, d), hm, rfl⟩⟩
  exact ⟨hrem, hbc, List.ne_nil_of_mem hbc⟩

/-- C3 witness: removing `/gone` (declaring one `get` method) produces the
`GET /gone` removed endpoint and its critical `endpoint_removed` breaking
change. -/
theorem C3_endpoint_removed_witness :
    ("GET /gone" ∈ (analyze_changes
        (Json.obj [("paths", Json.obj [("/gone", Json.obj [("get", Json.obj [])])])])
        (Json.obj [("paths", Json.obj [])])).removed_endpoints ∧
     ({ btype := "endpoint_removed", endpoint := "GET /gone",
        severity := "critical", parameter := none, status_code := none } : BreakingChange)
       ∈ (analyze_changes
        (Json.obj [("paths", Json.obj [("/gone", Json.obj [("get", Json.obj [])])])])
        (Json.obj [("paths", Json.obj [])])).breaking_changes ∧
     (analyze_changes
        (Json.obj [("paths", Json.obj [("/gone", Json.obj [("get", Json.obj [])])])])
        (Json.obj [("paths", Json.obj [])])).breaking_changes ≠ []) :=
  by
  have h := C3_endpoint_removed
    (Json.obj [("paths", Json.obj [("/gone", Json.obj [("get", Json.obj [])])])])
    (Json.obj [("paths", Json.obj [])]) "/gone" "get" (Json.obj [("get", Json.obj [])])
    (Json.obj []) (by decide) (by decide) (by decide)
  simpa using h

/-! ## C2 -/

/-- Unfolding `capture_snapshot` with the fingerprint abstracted: on an
empty history the snapshot is appended. -/
theorem capture_snapshot_eq_of_getLast_none (snapshots : List SpecSnapshot)
    (t : String) (spec_data : Json) (hlast : snapshots.getLast? = none) :
    capture_snapshot snapshots t spec_data =
      (snapshots ++
        [{ timestamp := t, spec_hash := fingerprint spec_data,
           spec_version := specVersionOf spec_data,
           endpoints_count := endpointsCountOf spec_data,
           spec_data := spec_data }],
       { timestamp := t, spec_hash := fingerprint spec_data,
         spec_version := specVersionOf spec_data,
         endpoints_count := endpointsCountOf spec_data,
         spec_data := spec_data }) := by
  unfold capture_snapshot
  generalize fingerprint spec_data = fp
  generalize specVersionOf spec_data = sv
  generalize endpointsCountOf spec_data = ec
  rw [hlast]

/-- Unfolding `capture_snapshot` when the last stored hash differs from the
captured fingerprint: the snapshot is appended. -/
theorem capture_snapshot_eq_of_hash_ne (snapshots : List SpecSnapshot)
    (t : String) (spec_data : Json) (last : SpecSnapshot)
    (hlast : snapshots.getLast? = some last)
    (h : last.spec_hash ≠ fingerprint spec_data) :
    capture_snapshot snapshots t spec_data =
      (snapshots ++
        [{ timestamp := t, spec_hash := fingerprint spec_data,
           spec_version := specVersionOf spec_data,
           endpoints_count := endpointsCountOf spec_data,
           spec_data := spec_data }],
       { timestamp := t, spec_hash := fingerprint spec_data,
         spec_version := specVersionOf spec_data,
         endpoints_count := endpointsCountOf spec_data,
         spec_data := spec_data }) := by
  unfold capture_snapshot
  generalize hfp : fingerprint spec_data = fp at h ⊢
  generalize specVersionOf spec_data = sv
  generalize endpointsCountOf spec_data = ec
  rw [hlast]
  simp [h]

/-- A capture whose data fingerprint equals the last stored hash is a
no-op returning that last snapshot. -/
theorem capture_snapshot_stable (snapshots : List SpecSnapshot) (t : String)
    (spec_data : Json) (last : SpecSnapshot)
    (hget : snapshots.getLast? = some last)
    (hhash : last.spec_hash = fingerprint spec_data) :
    capture_snapshot snapshots t spec_data = (snapshots, last) := by
  unfold capture_snapshot
  generalize hfp : fingerprint spec_data = fp at hhash ⊢
  generalize specVersionOf spec_data = sv
  generalize endpointsCountOf spec_data = ec
  rw [hget]
  simp [hhash]

/-- After any capture, the stored history ends in a snapshot whose hash is
the fingerprint of the captured data, and that snapshot is the returned
one. -/
theorem capture_snapshot_getLast (snapshots : List SpecSnapshot) (t : String)
    (spec_data : Json) :
    ∃ last, (capture_snapshot snapshots t spec_data).1.getLast? = some last ∧
      last.spec_hash = fingerprint spec_data ∧
      (capture_snapshot snapshots t spec_data).2 = last := by
  cases hlast : snapshots.getLast? with
  | none =>
      rw [capture_snapshot_eq_of_getLast_none snapshots t spec_data hlast]
      refine ⟨_, List.getLast?_concat _, ?_, ?_⟩ <;> dsimp only
  | some last =>
      by_cases h : last.spec_hash = fingerprint spec_data
      · rw [capture_snapshot_stable snapshots t spec_data last hlast h]
        exact ⟨last, hlast, h, rfl⟩
      · rw [capture_snapshot_eq_of_hash_ne snapshots t spec_data last hlast h]
        refine ⟨_, List.getLast?_concat _, ?_, ?_⟩ <;> dsimp only

/-- C2: a second capture of identical specification content is a no-op:
the history after the double capture equals the history after the single
capture (so the pair appends at most the one snapshot the first call
appends — exactly one when the previous history is empty or ends in a
different fingerprint), the repeated call returns the existing last
snapshot unchanged, and the deduplication invariant is preserved: no two
consecutive stored snapshots share a fingerprint. -/
theorem C2_capture_snapshot_idempotent (snapshots : List SpecSnapshot)
    (t1 t2 : String) (spec_data : Json)
    (hchain : List.Chain' (fun a b => a.spec_hash ≠ b.spec_hash) snapshots) :
    ((capture_snapshot snapshots t1 spec_data).1.length = snapshots.length ∨
     (capture_snapshot snapshots t1 spec_data).1.length = snapshots.length + 1) ∧
    ((∀ last, snapshots.getLast? = some last →
        last.spec_hash ≠ fingerprint spec_data) →
      (capture_snapshot snapshots t1 spec_data).1.length = snapshots.length + 1) ∧
    (capture_snapshot (capture_snapshot snapshots t1 spec_data).1 t2 spec_data).1 =
      (capture_snapshot snapshots t1 spec_data).1 ∧
    (capture_snapshot (capture_snapshot snapshots t1 spec_data).1 t2 spec_data).2 =
      (capture_snapshot snapshots t1 spec_data).2 ∧
    List.Chain' (fun a b => a.spec_hash ≠ b.spec_hash)
      (capture_snapshot snapshots t1 spec_data).1 := by
  obtain ⟨last1, hget1, hhash1, hret1⟩ :=
    capture_snapshot_getLast snapshots t1 spec_data
  have hstable := capture_snapshot_stable
    (capture_snapshot snapshots t1 spec_data).1 t2 spec_data last1 hget1 hhash1
  refine ⟨?_, ?_, by rw [hstable], by rw [hstable, hret1], ?_⟩
  · cases hlast : snapshots.getLast? with
    | none =>
        right
        rw [capture_snapshot_eq_of_getLast_none snapshots t1 spec_data hlast]
        simp
    | some last =>
        by_cases h : last.spec_hash = fingerprint spec_data
        · left
          rw [capture_snapshot_stable snapshots t1 spec_data last hlast h]
        · right
          rw [capture_snapshot_eq_of_hash_ne snapshots t1 spec_data last hlast h]
          simp
  · intro hfresh
    cases hlast : snapshots.getLast? with
    | none =>
        rw [capture_snapshot_eq_of_getLast_none snapshots t1 spec_data hlast]
        simp
    | some last =>
        rw [capture_snapshot_eq_of_hash_ne snapshots t1 spec_data last hlast
          (hfresh last hlast)]
        simp
  · cases hlast : snapshots.getLast? with
    | none =>
        have hnil : snapshots = [] := by
          simpa using hlast
        rw [capture_snapshot_eq_of_getLast_none snapshots t1 spec_data hlast, hnil]
        simp
    | some last =>
        by_cases h : last.spec_hash = fingerprint spec_data
        · rw [capture_snapshot_stable snapshots t1 spec_data last hlast h]
          exact hchain
        · rw [capture_snapshot_eq_of_hash_ne snapshots t1 spec_data last hlast h]
          rw [List.chain'_append]
          refine ⟨hchain, List.chain'_singleton _, ?_⟩
          intro x hx y hy
          rw [hlast] at hx
          simp only [Option.mem_def, Option.some.injEq] at hx
          subst hx
          have hy' :
              ({ timestamp := t1, spec_hash := fingerprint spec_data,
                 spec_version := specVersionOf spec_data,
                 endpoints_count := endpointsCountOf spec_data,
                 spec_data := spec_data } : SpecSnapshot) = y := by
            simpa using hy
          rw [← hy']
          dsimp only
          exact h

/-- C2 witness: the double-capture properties instantiated on an empty
history and a concrete specification. -/
theorem C2_capture_snapshot_idempotent_witness :
    List.Chain' (fun a b => a.spec_hash ≠ b.spec_hash) ([] : List SpecSnapshot) ∧
    (((capture_snapshot [] "2024-01-01T00:00:00Z"
        (Json.obj [("paths", Json.obj [("/u", Json.obj [("get", Json.obj [])])])])).1.length =
          ([] : List SpecSnapshot).length ∨
      (capture_snapshot [] "2024-01-01T00:00:00Z"
        (Json.obj [("paths", Json.obj [("/u", Json.obj [("get", Json.obj [])])])])).1.length =
          ([] : List SpecSnapshot).length + 1) ∧
     ((∀ last, ([] : List SpecSnapshot).getLast? = some last →
         last.spec_hash ≠ fingerprint
           (Json.obj [("paths", Json.obj [("/u", Json.obj [("get", Json.obj [])])])])) →
       (capture_snapshot [] "2024-01-01T00:00:00Z"
         (Json.obj [("paths", Json.obj [("/u", Json.obj [("get", Json.obj [])])])])).1.length =
           ([] : List SpecSnapshot).length + 1) ∧
     (capture_snapshot
        (capture_snapshot [] "2024-01-01T00:00:00Z"
          (Json.obj [("paths", Json.obj [("/u", Json.obj [("get", Json.obj [])])])])).1
        "2024-01-02T00:00:00Z"
        (Json.obj [("paths", Json.obj [("/u", Json.obj [("get", Json.obj [])])])])).1 =
       (capture_snapshot [] "2024-01-01T00:00:00Z"
         (Json.obj [("paths", Json.obj [("/u", Json.obj [("get", Json.obj [])])])])).1 ∧
     (capture_snapshot
        (capture_snapshot [] "2024-01-01T00:00:00Z"
          (Json.obj [("paths", Json.obj [("/u", Json.obj [("get", Json.obj [])])])])).1
        "2024-01-02T00:00:00Z"
        (Json.obj [("paths", Json.obj [("/u", Json.obj [("get", Json.obj [])])])])).2 =
       (capture_snapshot [] "2024-01-01T00:00:00Z"
         (Json.obj [("paths", Json.obj [("/u", Json.obj [("get", Json.obj [])])])])).2 ∧
     List.Chain' (fun a b => a.spec_hash ≠ b.spec_hash)
       (capture_snapshot [] "2024-01-01T00:00:00Z"
         (Json.obj [("paths", Json.obj [("/u", Json.obj [("get", Json.obj [])])])])).1) :=
  ⟨by simp,
   C2_capture_snapshot_idempotent [] "2024-01-01T00:00:00Z" "2024-01-02T00:00:00Z"
     (Json.obj [("paths", Json.obj [("/u", Json.obj [("get", Json.obj [])])])]) (by simp)⟩

/-! ## C8 -/

/-- C8: every snapshot stored or returned by a capture carries as
`endpoints_count` the sum, over the paths of its own specification, of the
number of methods declared for that path (`endpointsCountOf`); the
invariant is preserved by every capture. -/
theorem C8_endpoints_count (snapshots : List SpecSnapshot) (t : String)
    (spec_data : Json)
    (hinv : ∀ s ∈ snapshots, s.endpoints_count = endpointsCountOf s.spec_data) :
    (∀ s ∈ (capture_snapshot snapshots t spec_data).1,
      s.endpoints_count = endpointsCountOf s.spec_data) ∧
    (capture_snapshot snapshots t spec_data).2.endpoints_count =
      endpointsCountOf (capture_snapshot snapshots t spec_data).2.spec_data := by
  cases hlast : snapshots.getLast? with
  | none =>
      rw [capture_snapshot_eq_of_getLast_none snapshots t spec_data hlast]
      constructor
      · intro s hs
        rcases List.mem_append.mp hs with hs | hs
        · exact hinv s hs
        · simp only [List.mem_singleton] at hs
          subst hs
          dsimp only
      · dsimp only
  | some last =>
      by_cases h : last.spec_hash = fingerprint spec_data
      · rw [capture_snapshot_stable snapshots t spec_data last hlast h]
        exact ⟨hinv, hinv last (List.mem_of_mem_getLast? hlast)⟩
      · rw [capture_snapshot_eq_of_hash_ne snapshots t spec_data last hlast h]
        constructor
        · intro s hs
          rcases List.mem_append.mp hs with hs | hs
          · exact hinv s hs
          · simp only [List.mem_singleton] at hs
            subst hs
            dsimp only
        · dsimp only

/-- C8 witness: the capture invariant instantiated on an empty history and
a two-method specification. -/
theorem C8_endpoints_count_witness :
    (∀ s ∈ ([] : List SpecSnapshot),
      s.endpoints_count = endpointsCountOf s.spec_data) ∧
    ((∀ s ∈ (capture_snapshot [] "2024-01-01T00:00:00Z"
        (Json.obj [("paths", Json.obj [("/u", Json.obj
          [("get", Json.obj []), ("post", Json.obj [])])])])).1,
      s.endpoints_count = endpointsCountOf s.spec_data) ∧
     (capture_snapshot [] "2024-01-01T00:00:00Z"
        (Json.obj [("paths", Json.obj [("/u", Json.obj
          [("get", Json.obj []), ("post", Json.obj [])])])])).2.endpoints_count =
       endpointsCountOf (capture_snapshot [] "2024-01-01T00:00:00Z"
        (Json.obj [("paths", Json.obj [("/u", Json.obj
          [("get", Json.obj []), ("post", Json.obj [])])])])).2.spec_data) :=
  ⟨by simp,
   C8_endpoints_count [] "2024-01-01T00:00:00Z"
     (Json.obj [("paths", Json.obj [("/u", Json.obj
       [("get", Json.obj []), ("post", Json.obj [])])])]) (by simp)⟩

/-! ## C4 -/

/-- C4: for operations sharing a status code whose extracted
`content["application/json"].schema` values differ, `_check_breaking_changes`
records a `response_schema_changed` breaking change of severity warning;
every `response_schema_changed` it ever records has severity warning
(never critical); and everything it records for a modified common method
reaches the analysis's `breaking_changes` list — so a pair of
specifications differing only in a declared response schema yields a
`response_schema_changed` breaking change of severity warning. -/
theorem C4_response_schema_changed (path method : String)
    (old_spec new_spec : Json) (sc : String) (r1 r2 : Json)
    (h1 : (sc, r1) ∈ (dictGetD old_spec.objFieldsD "responses" (.obj [])).objFieldsD)
    (h2 : dictGet? (dictGetD new_spec.objFieldsD "responses" (.obj [])).objFieldsD sc =
      some r2)
    (hne : optPyEq (extract_schema r1) (extract_schema r2) = false) :
    ({ btype := "response_schema_changed", endpoint := pyUpper method ++ " " ++ path,
       severity := "warning", parameter := none, status_code := some sc } : BreakingChange)
      ∈ check_breaking_changes path method old_spec new_spec ∧
    (∀ bc ∈ check_breaking_changes path method old_spec new_spec,
      bc.btype = "response_schema_changed" → bc.severity = "warning") ∧
    (∀ (ospec nspec nMethodsJ oDet nDet : Json) (p m : String) (mOldJ : Json),
      (p, mOldJ) ∈ (dictGetD ospec.objFieldsD "paths" (.obj [])).objFieldsD →
      dictGet? (dictGetD nspec.objFieldsD "paths" (.obj [])).objFieldsD p =
        some nMethodsJ →
      (m, oDet) ∈ mOldJ.objFieldsD →
      dictGet? nMethodsJ.objFieldsD m = some nDet →
      pyEq oDet nDet = false →
      ∀ bc ∈ check_breaking_changes p m oDet nDet,
        bc ∈ (analyze_changes ospec nspec).breaking_changes) := by
  refine ⟨?_, ?_, ?_⟩
  · simp only [check_breaking_changes, List.mem_append]
    right
    rw [List.mem_filterMap]
    exact ⟨(sc, r1), h1, by simp [h2, hne]⟩
  · intro bc hbc hrt
    simp only [check_breaking_changes, List.mem_append] at hbc
    rcases hbc with hbc | hbc
    · rw [List.mem_filterMap] at hbc
      obtain ⟨kv, _, hf⟩ := hbc
      by_cases hcond : pyTruthy (dictGetD kv.2.objFieldsD "required" (.bool false)) = true ∧
          ¬ dictContains (paramsByName
            (dictGetD new_spec.objFieldsD "parameters" (.arr [])).arrD) kv.1 = true
      · simp only [if_pos hcond, Option.some.injEq] at hf
        rw [← hf] at hrt
        simp at hrt
      · simp only [if_neg hcond] at hf
        exact absurd hf (by simp)
    · rw [List.mem_filterMap] at hbc
      obtain ⟨kv, hkv, hf⟩ := hbc
      split at hf
      · exact absurd hf (by simp)
      · split at hf
        · have heq := Option.some.inj hf
          rw [← heq]
        · exact absurd hf (by simp)
  · intro ospec nspec nMethodsJ oDet nDet p m mOldJ hp hnp hm hnd hneq bc hbc
    simp only [analyze_changes, List.mem_append, List.map_map]
    right
    rw [List.mem_flatten]
    refine ⟨_, List.mem_map_of_mem _ hp, ?_⟩
    simp only [Function.comp]
    rw [hnp]
    simp only [List.mem_append, List.map_map]
    right
    rw [List.mem_flatten]
    have hnd' : nMethodsJ.objFieldsD.lookup m = some nDet := hnd
    refine ⟨_, List.mem_map_of_mem _
      (List.mem_filter.mpr ⟨hm, by simp [dictContains, hnd']⟩), ?_⟩
    simp only [Function.comp]
    rw [hnd]
    simp only [Option.getD_some]
    rw [if_pos (by simp [hneq])]
    exact hbc

/-- Example response declaration: a 200 response with an object schema. -/
def exResp200Object : Json :=
  Json.obj [("content", Json.obj [("application/json", Json.obj
    [("schema", Json.obj [("type", Json.str "object")])])])]

/-- Example response declaration: a 200 response with an array schema. -/
def exResp200Array : Json :=
  Json.obj [("content", Json.obj [("application/json", Json.obj
    [("schema", Json.obj [("type", Json.str "array")])])])]

/-- Example operation declaring only the object-schema 200 response. -/
def exOldOp : Json := Json.obj [("responses", Json.obj [("200", exResp200Object)])]

/-- Example operation identical to `exOldOp` except for the declared
response schema. -/
def exNewOp : Json := Json.obj [("responses", Json.obj [("200", exResp200Array)])]

/-- C4 witness: `C4_response_schema_changed` instantiated on two concrete
operations differing only in the declared 200-response schema. -/
theorem C4_response_schema_changed_witness :
    (("200", exResp200Object) ∈
      (dictGetD exOldOp.objFieldsD "responses" (.obj [])).objFieldsD) ∧
    (dictGet? (dictGetD exNewOp.objFieldsD "responses" (.obj [])).objFieldsD "200" =
      some exResp200Array) ∧
    (optPyEq (extract_schema exResp200Object) (extract_schema exResp200Array) = false) ∧
    (({ btype := "response_schema_changed", endpoint := pyUpper "get" ++ " " ++ "/u",
        severity := "warning", parameter := none, status_code := some "200" }
        : BreakingChange)
      ∈ check_breaking_changes "/u" "get" exOldOp exNewOp ∧
     (∀ bc ∈ check_breaking_changes "/u" "get" exOldOp exNewOp,
       bc.btype = "response_schema_changed" → bc.severity = "warning") ∧
     (∀ (ospec nspec nMethodsJ oDet nDet : Json) (p m : String) (mOldJ : Json),
       (p, mOldJ) ∈ (dictGetD ospec.objFieldsD "paths" (.obj [])).objFieldsD →
       dictGet? (dictGetD nspec.objFieldsD "paths" (.obj [])).objFieldsD p =
         some nMethodsJ →
       (m, oDet) ∈ mOldJ.objFieldsD →
       dictGet? nMethodsJ.objFieldsD m = some nDet →
       pyEq oDet nDet = false →
       ∀ bc ∈ check_breaking_changes p m oDet nDet,
         bc ∈ (analyze_changes ospec nspec).breaking_changes)) :=
  ⟨by decide, by decide, by decide,
   C4_response_schema_changed "/u" "get" exOldOp exNewOp "200"
     exResp200Object exResp200Array (by decide) (by decide) (by decide)⟩

/-! ## C6 -/

/-- Filtering out the `none`-producing branch of an if-valued `filterMap`. -/
theorem filterMap_ite_none {α β : Type} (p : α → Bool) (g : α → β) (l : List α) :
    l.filterMap (fun x => if p x then none else some (g x)) =
      (l.filter (fun x => ¬ p x)).map g := by
  induction l with
  | nil => rfl
  | cons x xs ih => by_cases h : p x <;> simp [h, ih]

/-- Scenario A specification: `GET /users/{id}` with a 200 response whose
object schema requires `id` and `name`. -/
def exSpecA : List (String × Json) :=
  [("paths", Json.obj [("/users/{id}", Json.obj [("get", Json.obj [
    ("parameters", Json.arr [Json.obj [("name", Json.str "id"),
      ("in", Json.str "path"), ("example", Json.str "42")]]),
    ("responses", Json.obj [("200", Json.obj [("content", Json.obj
      [("application/json", Json.obj [("schema", Json.obj
        [("type", Json.str "object"),
         ("required", Json.arr [Json.str "id", Json.str "name"])])])])])])])])])]

/-- Scenario A network: every request succeeds with status 200 and body
`{"id": 1}` (the required `name` is missing). -/
def okUserNetwork : Network := fun _ _ => .ok ⟨200, some (.obj [("id", .num 1)])⟩

/-- C6: when the declared schema has type `object` and the parsed body is a
mapping, the structural check emits exactly one error-severity issue per
required name absent from the body, each carrying the full required list
as `expected` and the body's key list as `actual`; end to end, scenario A
(`GET /users/{id}`, 200 response `{"id": 1}` against a schema requiring
`id` and `name`) yields exactly one error issue citing the missing `name`
property. -/
theorem C6_missing_required_property (path method : String)
    (d : List (String × Json)) (schema : Json)
    (htype : dictGet? schema.objFieldsD "type" = some (.str "object")) :
    (validate_schema_structure path method (.obj d) schema =
      ((dictGetD schema.objFieldsD "required" (.arr [])).arrD.filter
        (fun prop => ¬ pyKeyMem prop d)).map (fun prop =>
          { severity := .error, endpoint := path, method := method,
            message := "Missing required property: " ++ pyStr prop,
            expected := some (.arr (dictGetD schema.objFieldsD "required" (.arr [])).arrD),
            actual := some (.arr (d.map (fun kv => .str kv.1))) })) ∧
    ((validate_all_endpoints
        { base_url := "http://x", spec := exSpecA, issues := [] } okUserNetwork).2.1 =
      [{ severity := .error, endpoint := "/users/{id}", method := "GET",
         message := "Missing required property: name",
         expected := some (.arr [.str "id", .str "name"]),
         actual := some (.arr [.str "id"]) }] ∧
     (validate_all_endpoints
        { base_url := "http://x", spec := exSpecA, issues := [] } okUserNetwork).2.2 =
      [("GET", "http://x/users/42")]) := by
  refine ⟨?_, by rfl, by rfl⟩
  simp only [validate_schema_structure, htype, reduceIte]
  exact filterMap_ite_none _ _ _

/-- C6 witness: the structural check instantiated on the scenario A schema
and body, where exactly `name` is missing. -/
theorem C6_missing_required_property_witness :
    (dictGet? (Json.obj [("type", Json.str "object"),
        ("required", Json.arr [Json.str "id", Json.str "name"])]).objFieldsD "type" =
      some (.str "object")) ∧
    validate_schema_structure "/users/{id}" "GET" (.obj [("id", .num 1)])
        (Json.obj [("type", Json.str "object"),
          ("required", Json.arr [Json.str "id", Json.str "name"])]) =
      ((dictGetD (Json.obj [("type", Json.str "object"),
          ("required", Json.arr [Json.str "id", Json.str "name"])]).objFieldsD
          "required" (.arr [])).arrD.filter
        (fun prop => ¬ pyKeyMem prop [("id", Json.num 1)])).map (fun prop =>
          { severity := .error, endpoint := "/users/{id}", method := "GET",
            message := "Missing required property: " ++ pyStr prop,
            expected := some (.arr (dictGetD (Json.obj [("type", Json.str "object"),
              ("required", Json.arr [Json.str "id", Json.str "name"])]).objFieldsD
              "required" (.arr [])).arrD),
            actual := some (.arr ([("id", Json.num 1)].map (fun kv => .str kv.1))) }) :=
  ⟨by decide,
   (C6_missing_required_property "/users/{id}" "GET" [("id", Json.num 1)]
     (Json.obj [("type", Json.str "object"),
       ("required", Json.arr [Json.str "id", Json.str "name"])]) (by decide)).1⟩

/-! ## C7 -/

set_option maxRecDepth 1000000 in
/-- The fingerprint of `{"a": "9048669"}`, by computation. -/
theorem fingerprint_collision_left :
    fingerprint (Json.obj [("a", Json.str "9048669")]) = "fca2b3b9a1a7" := by rfl

set_option maxRecDepth 1000000 in
/-- The fingerprint of `{"a": "28373373"}`, by computation. -/
theorem fingerprint_collision_right :
    fingerprint (Json.obj [("a", Json.str "28373373")]) = "fca2b3b9a1a7" := by rfl

/-- C7 counterexample: two specifications that differ in (only) the value
of their single field `"a"` yet share the 12-character truncated
fingerprint `fca2b3b9a1a7` — a birthday collision of the 48-bit prefix, so
a single changed field does not always change the fingerprint. -/
theorem C7_counterexample :
    Json.obj [("a", Json.str "9048669")] ≠ Json.obj [("a", Json.str "28373373")] ∧
    fingerprint (Json.obj [("a", Json.str "9048669")]) =
      fingerprint (Json.obj [("a", Json.str "28373373")]) :=
  ⟨by decide, by rw [fingerprint_collision_left, fingerprint_collision_right]⟩

/-- C7 (amended): the fingerprint is the first 12 hex characters of the
SHA-256 digest of the specification serialized with recursively sorted
keys, so any two trees equal under key-order-insensitive comparison (equal
after recursively sorting object keys) have identical fingerprints; a
single changed field, however, can leave the truncated fingerprint
unchanged, as the collision counterexample shows. -/
theorem C7_fingerprint_deterministic (a b : Json)
    (h : jsonNormalize a = jsonNormalize b) :
    fingerprint a = fingerprint b ∧
    fingerprint a = (sha256hex (strBytes (pyDumps (jsonNormalize a)))).take 12 := by
  constructor
  · show (sha256hex (strBytes (pyDumps (jsonNormalize a)))).take 12 =
      (sha256hex (strBytes (pyDumps (jsonNormalize b)))).take 12
    rw [h]
  · rfl

/-- C7 witness: two key-order permutations of the same two-field object
get the same fingerprint. -/
theorem C7_fingerprint_deterministic_witness :
    jsonNormalize (Json.obj [("b", Json.num 1), ("a", Json.num 2)]) =
      jsonNormalize (Json.obj [("a", Json.num 2), ("b", Json.num 1)]) ∧
    (fingerprint (Json.obj [("b", Json.num 1), ("a", Json.num 2)]) =
       fingerprint (Json.obj [("a", Json.num 2), ("b", Json.num 1)]) ∧
     fingerprint (Json.obj [("b", Json.num 1), ("a", Json.num 2)]) =
       (sha256hex (strBytes (pyDumps (jsonNormalize
         (Json.obj [("b", Json.num 1), ("a", Json.num 2)]))))).take 12) :=
  ⟨by decide, C7_fingerprint_deterministic _ _ (by decide)⟩

/-! ## C9 -/

/-- A positive `critical` bucket is the same as the existence of a critical
issue. -/
theorem get_summary_critical_pos (issues : List ValidationIssue) :
    0 < (get_summary issues).critical ↔ ∃ i ∈ issues, i.severity = .critical := by
  rw [get_summary_critical, List.length_pos]
  simp [List.filter_eq_nil_iff]

/-- A positive `error` bucket is the same as the existence of an error
issue. -/
theorem get_summary_error_pos (issues : List ValidationIssue) :
    0 < (get_summary issues).error ↔ ∃ i ∈ issues, i.severity = .error := by
  rw [get_summary_error, List.length_pos]
  simp [List.filter_eq_nil_iff]

/-- C9: the CLI exit codes — `validate` exits 1 exactly when a critical or
error-severity issue exists and 0 otherwise; `detect-drift` exits 0 on
completion; `generate-report` exits 0 only with an API key and successful
generation, else 1; a `KeyboardInterrupt` exits 130; any other unhandled
exception (or a missing subcommand) exits 1. -/
theorem C9_cli_exit_codes (issues : List ValidationIssue)
    (api_key_set report_ok : Bool) :
    (main_exit_code (some (.completed (validate_command_exit issues))) =
      if ∃ i ∈ issues, i.severity = .critical ∨ i.severity = .error then 1 else 0) ∧
    main_exit_code (some (.completed detect_drift_command_exit)) = 0 ∧
    (main_exit_code (some (.completed
        (generate_report_command_exit api_key_set report_ok))) =
      if api_key_set ∧ report_ok then 0 else 1) ∧
    main_exit_code (some .interrupted) = 130 ∧
    main_exit_code (some .errored) = 1 ∧
    main_exit_code none = 1 := by
  refine ⟨?_, rfl, ?_, rfl, rfl, rfl⟩
  · show (validate_command_exit issues) =
      if ∃ i ∈ issues, i.severity = .critical ∨ i.severity = .error then 1 else 0
    rw [validate_command_exit]
    refine if_congr ?_ rfl rfl
    rw [gt_iff_lt, gt_iff_lt, get_summary_critical_pos, get_summary_error_pos]
    constructor
    · rintro (⟨i, hi, hs⟩ | ⟨i, hi, hs⟩)
      · exact ⟨i, hi, Or.inl hs⟩
      · exact ⟨i, hi, Or.inr hs⟩
    · rintro ⟨i, hi, hs | hs⟩
      · exact Or.inl ⟨i, hi, hs⟩
      · exact Or.inr ⟨i, hi, hs⟩
  · cases api_key_set <;> cases report_ok <;> rfl

/-! ## C10 -/

/-- C10: `validate_all_endpoints` resets the validator's issue list before
walking the specification: its result does not depend on previously
accumulated issues, running it twice in a row returns the same issue list
(and state) as running it once — nothing accumulates or duplicates — and
the post-state stores exactly the returned list, so any subsequent summary
reflects only the current run. -/
theorem C10_issues_reset (v : APIValidator) (prior : List ValidationIssue)
    (net : Network) :
    validate_all_endpoints { v with issues := prior } net =
      validate_all_endpoints v net ∧
    validate_all_endpoints (validate_all_endpoints v net).1 net =
      validate_all_endpoints v net ∧
    (validate_all_endpoints v net).1.issues = (validate_all_endpoints v net).2.1 := by
  obtain ⟨b, s, is⟩ := v
  by_cases h : dictContains s "paths"
  · simp [validate_all_endpoints, h]
  · simp [validate_all_endpoints, h]
